import Mathlib

/-!
Verification of the SkillSage Hub core logic (src/resume.py).

The program's reusable logic is the skill-extraction-and-gap-analysis
routine: `extract_skills`, `suggest_skills`, and the inline job-fit
computation of the Resume Analysis module, together with the fixed
catalogs `job_roles` and `all_skills`.  Python strings are modelled as
Lean `String` values (sequences of code points); `str.lower` is modelled
as the ASCII lowercase map, which agrees with Python on the catalog's
skill names and on ASCII text.  The fit expression
`int((len(skills)/len(job_roles[target_role]))*100)` divides with IEEE
doubles in Python; on the reachable domain (numerator at most the 17
catalog skills, divisor 4 or 5) the double computation agrees with exact
rational arithmetic, so the division is modelled over `ℚ` and `int` as
truncation toward zero.  A `KeyError` from `job_roles[target_role]` is
modelled as `none`.
-/

/-- The role catalog `job_roles` from src/resume.py, as an association list
in the dictionary's insertion order. -/
def job_roles : List (String × List String) :=
  [("Data Analyst", ["Python", "SQL", "Excel", "Power BI", "Statistics"]),
   ("AI/ML Engineer", ["Python", "Machine Learning", "Deep Learning", "TensorFlow", "PyTorch"]),
   ("Web Developer", ["HTML", "CSS", "JavaScript", "React", "SQL"]),
   ("Software Engineer", ["Java", "C++", "Data Structures", "Algorithms"])]

/-- `job_roles.get(target_role, [])` of Python: lookup with default `[]`. -/
def rolesGet (target_role : String) : List String :=
  (job_roles.lookup target_role).getD []

/-- ASCII lowercase on one code point, as Python's `str.lower` acts on
ASCII characters (non-ASCII code points are left unchanged by the model). -/
def lowerChar (c : Char) : Char :=
  if 'A' ≤ c ∧ c ≤ 'Z' then Char.ofNat (c.toNat + 32) else c

/-- `text.lower()` of Python on the model's alphabet. -/
def lowerStr (s : String) : String :=
  ⟨s.data.map lowerChar⟩

/-- `needle` is an initial segment of `haystack` (helper for the substring
test that Python's `in` operator performs). -/
def leadsList : List Char → List Char → Bool
  | [], _ => true
  | _ :: _, [] => false
  | a :: as, b :: bs => a == b && leadsList as bs

/-- `needle in haystack` of Python on strings: contiguous-substring
containment, scanning every start position. -/
def occursIn : List Char → List Char → Bool
  | n, [] => leadsList n []
  | n, b :: t => leadsList n (b :: t) || occursIn n t

/-- `leadsList n (h.drop i)`: the needle occurs at position `i`. -/
def occursAt (n h : List Char) (i : Nat) : Bool :=
  leadsList n (h.drop i)

/-- Every occurrence of `sub` in `h` is also an occurrence of `sup`
(used to state that "java" appears only inside "javascript"). -/
def onlyInside (sub sup h : List Char) : Bool :=
  (List.range h.length).all fun i => !(occursAt sub h i) || occursAt sup h i

/-- Strict lexicographic order on code-point sequences, as Python compares
strings. -/
def lexLt : List Char → List Char → Bool
  | [], [] => false
  | [], _ :: _ => true
  | _ :: _, [] => false
  | a :: as, b :: bs => decide (a < b) || (a == b && lexLt as bs)

/-- `a <= b` on Python strings. -/
def strLe (a b : String) : Bool :=
  !(lexLt b.data a.data)

/-- Python's `sorted` on a list of strings: ascending lexicographic order on
code points.  Strings that compare equal are equal, so the stable insertion
sort below returns the same list as any other sort. -/
def sortedStrings (l : List String) : List String :=
  l.insertionSort fun a b => strLe a b = true

/-- `all_skills = sorted({skill for skills in job_roles.values() for skill in skills})`:
the deduplicated union of all role skill lists, sorted ascending. -/
def all_skills : List String :=
  sortedStrings ((job_roles.map Prod.snd).flatten.dedup)

/-- `extract_skills(text)` from src/resume.py lines 59-62: lowercase the
text, keep every catalog skill whose lowercased form occurs in it as a
contiguous substring, then `sorted(list(set(found)))`. -/
def extract_skills (text : String) : List String :=
  let text_lower := lowerStr text
  let found := all_skills.filter fun skill => occursIn (lowerStr skill).data text_lower.data
  sortedStrings found.dedup

/-- `suggest_skills(found_skills, target_role)` from src/resume.py lines
64-67: the role's required skills, in order, without those already found. -/
def suggest_skills (found_skills : List String) (target_role : String) : List String :=
  let role_skills := rolesGet target_role
  role_skills.filter fun s => !(found_skills.contains s)

/-- Python's `int()` on an exact rational: truncation toward zero. -/
def pyTrunc (q : ℚ) : ℤ :=
  if 0 ≤ q then ⌊q⌋ else ⌈q⌉

/-- The job-fit computation of src/resume.py line 116:
`int((len(skills)/len(job_roles[target_role]))*100) if job_roles[target_role] else 0`.
An absent role raises `KeyError`, modelled as `none`; division is exact
rational division (it agrees with the source's double arithmetic on the
whole reachable domain). -/
def job_fit (skills : List String) (target_role : String) : Option ℤ :=
  match job_roles.lookup target_role with
  | none => none
  | some req =>
      some (if req = [] then 0
            else pyTrunc (((skills.length : ℚ) / (req.length : ℚ)) * 100))

/-- The per-file record assembled by the Resume Analysis module
(src/resume.py lines 113-124). -/
structure ResumeAnalysis where
  targetRole : String
  detectedSkills : List String
  missingSkills : List String
  jobFit : Option ℤ
deriving Repr, DecidableEq

/-- One pass of the Resume Analysis module over an extracted text. -/
def analyzeResume (text : String) (target_role : String) : ResumeAnalysis :=
  let skills := extract_skills text
  { targetRole := target_role
    detectedSkills := skills
    missingSkills := suggest_skills skills target_role
    jobFit := job_fit skills target_role }

/-- Outcome of the Create Resume module's generate button. -/
inductive CreateResumeOutcome where
  | warning
  | document
deriving Repr, DecidableEq

/-- The Create Resume module's branch (src/resume.py lines 206-232):
`if not name or not email or not skills or not summary` show a warning and
produce nothing, otherwise build and offer the PDF. -/
def create_resume (name email : String) (skills : List String) (summary : String) :
    CreateResumeOutcome :=
  if name = "" ∨ email = "" ∨ skills = [] ∨ summary = "" then
    CreateResumeOutcome.warning
  else
    CreateResumeOutcome.document

example : all_skills.length = 17 := by decide
example : extract_skills "Experienced in python and Excel reporting" = ["Excel", "Python"] := by
  decide

/-! ## Helper lemmas -/

theorem leadsList_iff (n h : List Char) :
    leadsList n h = true ↔ ∃ rest, h = n ++ rest := by
  induction n generalizing h with
  | nil => simp [leadsList]
  | cons a as ih =>
    cases h with
    | nil => simp [leadsList]
    | cons b bs =>
      simp only [leadsList, Bool.and_eq_true, beq_iff_eq, ih, List.cons_append,
        List.cons.injEq]
      constructor
      · rintro ⟨rfl, rest, rfl⟩
        exact ⟨rest, rfl, rfl⟩
      · rintro ⟨rest, rfl, rfl⟩
        exact ⟨rfl, rest, rfl⟩

theorem occursIn_iff (n h : List Char) :
    occursIn n h = true ↔ ∃ pre post, h = pre ++ n ++ post := by
  induction h with
  | nil =>
    simp only [occursIn, leadsList_iff]
    constructor
    · rintro ⟨rest, h⟩
      exact ⟨[], rest, h⟩
    · rintro ⟨pre, post, h⟩
      rcases List.append_eq_nil.mp (List.append_eq_nil.mp h.symm).1 with ⟨h1, h2⟩
      exact ⟨post, by simp [h2, (List.append_eq_nil.mp h.symm).2]⟩
  | cons b t ih =>
    simp only [occursIn, Bool.or_eq_true, leadsList_iff, ih]
    constructor
    · rintro (⟨rest, hr⟩ | ⟨pre, post, rfl⟩)
      · exact ⟨[], rest, by simp [hr]⟩
      · exact ⟨b :: pre, post, by simp⟩
    · rintro ⟨pre, post, hsplit⟩
      cases pre with
      | nil =>
        exact Or.inl ⟨post, by simpa using hsplit⟩
      | cons p ps =>
        simp only [List.cons_append, List.cons.injEq] at hsplit
        exact Or.inr ⟨ps, post, hsplit.2⟩

theorem occursIn_append_right {n h : List Char} (h₂ : List Char)
    (ho : occursIn n h = true) : occursIn n (h ++ h₂) = true := by
  rw [occursIn_iff] at ho ⊢
  obtain ⟨pre, post, rfl⟩ := ho
  exact ⟨pre, post ++ h₂, by simp⟩

theorem mem_sortedStrings {s : String} {l : List String} :
    s ∈ sortedStrings l ↔ s ∈ l :=
  List.mem_insertionSort _

theorem mem_suggest_skills (found : List String) (role : String) (s : String) :
    s ∈ suggest_skills found role ↔ s ∈ rolesGet role ∧ s ∉ found := by
  simp [suggest_skills, List.mem_filter]

theorem mem_extract_skills (s : String) (t : String) :
    s ∈ extract_skills t ↔
      s ∈ all_skills ∧ occursIn (lowerStr s).data (lowerStr t).data = true := by
  unfold extract_skills
  simp only [mem_sortedStrings, List.mem_dedup, List.mem_filter]

theorem length_extract_skills_le (t : String) :
    (extract_skills t).length ≤ 17 := by
  unfold extract_skills
  simp only [sortedStrings, List.length_insertionSort]
  calc ((all_skills.filter _).dedup).length
      ≤ (all_skills.filter _).length := (List.dedup_sublist _).length_le
    _ ≤ all_skills.length := (List.filter_sublist _).length_le
    _ = 17 := by decide

theorem lowerStr_append (s t : String) :
    (lowerStr (s ++ t)).data = (lowerStr s).data ++ (lowerStr t).data := by
  simp [lowerStr, String.data_append]

theorem pyTrunc_div (a b : ℕ) (hb : 0 < b) :
    pyTrunc ((a : ℚ) / (b : ℚ) * 100) = ((100 * a) / b : ℕ) := by
  have hq : (0 : ℚ) ≤ (a : ℚ) / (b : ℚ) * 100 := by positivity
  rw [pyTrunc, if_pos hq]
  have hcast : (a : ℚ) / (b : ℚ) * 100 = ((100 * a : ℕ) : ℚ) / ((b : ℕ) : ℚ) := by
    push_cast
    ring
  rw [hcast, ← Int.natCast_floor_eq_floor (by positivity), Nat.floor_div_eq_div]

/-- Evaluation of the fit computation on a role present in the catalog with a
nonempty requirement list: exact rational truncation equals natural floor
division. -/
theorem job_fit_eq (skills : List String) (r : String) (req : List String)
    (hreq : job_roles.lookup r = some req) (hne : req ≠ []) :
    job_fit skills r = some (((100 * skills.length) / req.length : ℕ) : ℤ) := by
  simp only [job_fit, hreq, if_neg hne]
  rw [pyTrunc_div _ _ (List.length_pos.mpr hne)]

/-- Any fit value computed from an extracted skill list of a catalog role with
at least 4 required skills lies in `[0, 425]`. -/
theorem job_fit_extract_bound (text r : String) (req : List String)
    (hreq : job_roles.lookup r = some req) (h4 : 4 ≤ req.length) :
    ∃ v : ℤ, job_fit (extract_skills text) r = some v ∧ 0 ≤ v ∧ v ≤ 425 := by
  have hne : req ≠ [] := by
    intro e
    rw [e] at h4
    simp at h4
  refine ⟨_, job_fit_eq _ _ _ hreq hne, Int.natCast_nonneg _, ?_⟩
  have hlen := length_extract_skills_le text
  have hb : (100 * (extract_skills text).length) / req.length ≤ 425 := by
    calc (100 * (extract_skills text).length) / req.length
        ≤ 1700 / req.length := Nat.div_le_div_right (by omega)
      _ ≤ 1700 / 4 := Nat.div_le_div_left h4 (by norm_num)
      _ = 425 := by norm_num
  exact_mod_cast hb

/-! ## Claim theorems -/

/-- C1: for every skill in the catalog and every text, the skill is a member
of `extract_skills text` iff its lowercased form occurs as a contiguous
substring of the lowercased text; no word-boundary condition appears. -/
theorem extract_skills_substring_iff (s : String) (hs : s ∈ all_skills) (t : String) :
    s ∈ extract_skills t ↔
      ∃ pre post : List Char, (lowerStr t).data = pre ++ (lowerStr s).data ++ post := by
  rw [mem_extract_skills, occursIn_iff]
  simp [hs]

/-- Witness for C1 at skill "Python" and text "I know Python". -/
theorem extract_skills_substring_iff_witness :
    ∃ pre post : List Char,
      (lowerStr "I know Python").data = pre ++ (lowerStr "Python").data ++ post :=
  (extract_skills_substring_iff "Python" (by decide) "I know Python").mp (by decide)

/-- C2: for a catalog role with a nonempty requirement list, the fit equals
`floor (100 * |detected| / |required|)` where the numerator counts every
detected skill, and for some detected set the value exceeds 100. -/
theorem job_fit_counts_all_detected (skills : List String) (r : String) (req : List String)
    (hreq : job_roles.lookup r = some req) (hne : req ≠ []) :
    job_fit skills r = some (((100 * skills.length) / req.length : ℕ) : ℤ) ∧
      ∃ sk role v, job_fit sk role = some v ∧ 100 < v := by
  refine ⟨job_fit_eq skills r req hreq hne,
    ⟨["Java", "C++", "Data Structures", "Algorithms", "Python"], "Software Engineer", 125,
      ?_, by norm_num⟩⟩
  rw [job_fit_eq _ "Software Engineer" ["Java", "C++", "Data Structures", "Algorithms"]
    (by decide) (by decide)]
  decide

/-- Witness for C2: two detected skills against the five required by
"Data Analyst" give a fit of 40. -/
theorem job_fit_counts_all_detected_witness :
    job_fit ["Excel", "Python"] "Data Analyst" = some 40 :=
  ((job_fit_counts_all_detected ["Excel", "Python"] "Data Analyst"
    ["Python", "SQL", "Excel", "Power BI", "Statistics"] (by decide) (by decide)).1).trans
    (by decide)

/-- A resume text whose five detected skills exceed the four required by
"Software Engineer". -/
def overqualifiedText : String := "Java C++ Data Structures Algorithms Python"

/-- C3 counterexample: the analysis of `overqualifiedText` against
"Software Engineer" stores a fit of 125, which is not at most 100. -/
theorem resume_fit_exceeds_100 :
    (analyzeResume overqualifiedText "Software Engineer").jobFit = some 125 ∧
      ¬((125 : ℤ) ≤ 100) := by
  constructor
  · show job_fit (extract_skills overqualifiedText) "Software Engineer" = some 125
    rw [job_fit_eq _ _ ["Java", "C++", "Data Structures", "Algorithms"] (by decide) (by decide)]
    have hlen : (extract_skills overqualifiedText).length = 5 := by decide
    rw [hlen]
    decide
  · decide

/-- C3 amended: for every text and every role of the catalog, the stored fit
percentage is an integer between 0 and 425 inclusive. -/
theorem resume_fit_bounded (text role : String) (h : role ∈ job_roles.map Prod.fst) :
    ∃ v : ℤ, (analyzeResume text role).jobFit = some v ∧ 0 ≤ v ∧ v ≤ 425 := by
  have hmem : role = "Data Analyst" ∨ role = "AI/ML Engineer" ∨ role = "Web Developer" ∨
      role = "Software Engineer" := by
    simpa [job_roles] using h
  show ∃ v : ℤ, job_fit (extract_skills text) role = some v ∧ 0 ≤ v ∧ v ≤ 425
  rcases hmem with rfl | rfl | rfl | rfl
  · exact job_fit_extract_bound text _ ["Python", "SQL", "Excel", "Power BI", "Statistics"]
      (by decide) (by decide)
  · exact job_fit_extract_bound text _
      ["Python", "Machine Learning", "Deep Learning", "TensorFlow", "PyTorch"]
      (by decide) (by decide)
  · exact job_fit_extract_bound text _ ["HTML", "CSS", "JavaScript", "React", "SQL"]
      (by decide) (by decide)
  · exact job_fit_extract_bound text _ ["Java", "C++", "Data Structures", "Algorithms"]
      (by decide) (by decide)

/-- Witness for the amended C3 at the empty text and role "Data Analyst". -/
theorem resume_fit_bounded_witness :
    ∃ v : ℤ, (analyzeResume "" "Data Analyst").jobFit = some v ∧ 0 ≤ v ∧ v ≤ 425 :=
  resume_fit_bounded "" "Data Analyst" (by decide)

/-- C4: `suggest_skills` returns the role's required skills in the role's
order filtered to those not detected, contains no detected skill, and yields
`[]` for a role absent from the catalog. -/
theorem suggest_skills_spec (found : List String) (role : String) :
    List.Sublist (suggest_skills found role) (rolesGet role) ∧
      (∀ s, s ∈ suggest_skills found role ↔ s ∈ rolesGet role ∧ s ∉ found) ∧
      (∀ s ∈ found, s ∉ suggest_skills found role) ∧
      (job_roles.lookup role = none → suggest_skills found role = []) := by
  refine ⟨List.filter_sublist _, ?_, ?_, ?_⟩
  · intro s
    exact mem_suggest_skills found role s
  · intro s hs hmem
    exact ((mem_suggest_skills found role s).mp hmem).2 hs
  · intro hnone
    simp [suggest_skills, rolesGet, hnone]

/-- Witness for C4 at a role absent from the catalog. -/
theorem suggest_skills_spec_witness :
    suggest_skills ["Python"] "Astronaut" = [] :=
  (suggest_skills_spec ["Python"] "Astronaut").2.2.2 (by decide)

/-- C5 counterexample: for the unknown role "Astronaut" the missing-skill
list is empty, but the fit computation raises `KeyError` (modelled `none`)
instead of producing the value 0. -/
theorem unknown_role_fit_errors :
    (analyzeResume "Python and SQL" "Astronaut").missingSkills = [] ∧
      (analyzeResume "Python and SQL" "Astronaut").jobFit = none ∧
      (analyzeResume "Python and SQL" "Astronaut").jobFit ≠ some 0 := by
  refine ⟨?_, ?_, ?_⟩ <;> decide

/-- C5 amended: a role absent from the catalog yields an empty missing-skill
list without error, while the fit computation fails with `KeyError` rather
than returning 0. -/
theorem unknown_role_amended (text role : String)
    (h : job_roles.lookup role = none) :
    (analyzeResume text role).missingSkills = [] ∧
      (analyzeResume text role).jobFit = none := by
  constructor
  · show suggest_skills (extract_skills text) role = []
    simp [suggest_skills, rolesGet, h]
  · show job_fit (extract_skills text) role = none
    simp [job_fit, h]

/-- Witness for the amended C5 at role "Astronaut". -/
theorem unknown_role_amended_witness :
    (analyzeResume "Python and SQL" "Astronaut").missingSkills = [] ∧
      (analyzeResume "Python and SQL" "Astronaut").jobFit = none :=
  unknown_role_amended "Python and SQL" "Astronaut" (by decide)

/-- C6: `extract_skills` is deterministic — two calls on identical text
return identical skill lists. -/
theorem extract_skills_deterministic (t₁ t₂ : String) (h : t₁ = t₂) :
    extract_skills t₁ = extract_skills t₂ := by
  rw [h]

/-- Witness for C6 on a concrete text. -/
theorem extract_skills_deterministic_witness :
    extract_skills "resume text" = extract_skills "resume text" :=
  extract_skills_deterministic "resume text" "resume text" rfl

/-- A text containing the token "JavaScript" but no standalone "Java". -/
def javascriptText : String := "Skilled in JavaScript development"

/-- C7: the text contains "JavaScript", every occurrence of "java" in the
lowercased text is the start of an occurrence of "javascript", and yet the
skill "Java" is detected. -/
theorem java_detected_inside_javascript :
    "Java" ∈ extract_skills javascriptText ∧
      occursIn (lowerStr "JavaScript").data (lowerStr javascriptText).data = true ∧
      onlyInside (lowerStr "Java").data (lowerStr "JavaScript").data
        (lowerStr javascriptText).data = true := by
  decide

/-- C8: the Create Resume module produces a document iff all four required
fields are non-empty, and reports a validation warning iff some field is
missing. -/
theorem create_resume_validation (name email : String) (skills : List String)
    (summary : String) :
    (create_resume name email skills summary = CreateResumeOutcome.document ↔
      name ≠ "" ∧ email ≠ "" ∧ skills ≠ [] ∧ summary ≠ "") ∧
      (create_resume name email skills summary = CreateResumeOutcome.warning ↔
      (name = "" ∨ email = "" ∨ skills = [] ∨ summary = "")) := by
  refine ⟨?_, ?_⟩
  · unfold create_resume
    split_ifs with h
    · constructor
      · intro hc
        exact absurd hc (by decide)
      · intro hc
        rcases h with h | h | h | h
        · exact absurd h hc.1
        · exact absurd h hc.2.1
        · exact absurd h hc.2.2.1
        · exact absurd h hc.2.2.2
    · push_neg at h
      simpa using h
  · unfold create_resume
    split_ifs with h
    · simpa using h
    · constructor
      · intro hc
        exact absurd hc (by decide)
      · intro hc
        exact absurd hc h

/-- Witness for C8: filled fields produce a document, an empty summary does
not. -/
theorem create_resume_validation_witness :
    create_resume "Ada" "ada@mail.com" ["Python"] "Curious engineer" =
      CreateResumeOutcome.document ∧
      create_resume "Ada" "ada@mail.com" ["Python"] "" = CreateResumeOutcome.warning :=
  ⟨(create_resume_validation "Ada" "ada@mail.com" ["Python"] "Curious engineer").1.mpr
      (by decide),
    (create_resume_validation "Ada" "ada@mail.com" ["Python"] "").2.mpr (by decide)⟩

/-- C9: appending text never removes a detected skill. -/
theorem extract_skills_monotone (t u s : String) (h : s ∈ extract_skills t) :
    s ∈ extract_skills (t ++ u) := by
  rw [mem_extract_skills] at h ⊢
  refine ⟨h.1, ?_⟩
  rw [lowerStr_append]
  exact occursIn_append_right _ h.2

/-- Witness for C9: "Python" stays detected after appending text. -/
theorem extract_skills_monotone_witness :
    "Python" ∈ extract_skills ("I know Python" ++ " and more") :=
  extract_skills_monotone "I know Python" " and more" "Python" (by decide)

/-- C10: every required skill of a catalog role is detected or reported
missing. -/
theorem required_covered (found : List String) (role : String) (req : List String)
    (hreq : job_roles.lookup role = some req) :
    ∀ s ∈ req, s ∈ found ∨ s ∈ suggest_skills found role := by
  intro s hs
  by_cases hf : s ∈ found
  · exact Or.inl hf
  · refine Or.inr ((mem_suggest_skills found role s).mpr ⟨?_, hf⟩)
    simp [rolesGet, hreq, hs]

/-- Witness for C10: "SQL" is missing for "Data Analyst" when only "Python"
is detected. -/
theorem required_covered_witness :
    "SQL" ∈ (["Python"] : List String) ∨ "SQL" ∈ suggest_skills ["Python"] "Data Analyst" :=
  required_covered ["Python"] "Data Analyst" ["Python", "SQL", "Excel", "Power BI", "Statistics"]
    (by decide) "SQL" (by decide)
